import Mathlib

/-!
Verification development for the `astrbot_plugin_ip_location` plugin
(`src/main.py`).  The plugin resolves an IP address to geolocation
metadata by querying two external HTTP providers in a fixed order with
fallback, and formats the result as a chat reply.

The embedding below models:
  * JSON values (`JVal`) as returned by `response.json()`;
  * the Python coercion `float(x)` (`pyFloat`), dictionary `get` with a
    default (`getD`), `==` against an integer (`jeqNum`), and truthiness
    (`truthy`);
  * the HTTP environment: what each provider call yields on this
    invocation (`Env`), either an exception or a response carrying the
    HTTP status and the outcome of parsing the body;
  * `_query_ip_info` as a state-passing function that also returns the
    list of HTTP requests issued (`queryBody`);
  * the command handler `query_ip` returning the list of emitted reply
    texts together with the requests issued;
  * the validator `_is_valid_ip`: the denotation of the Python regex
    `^(?:(?:25[0-5]|2[0-4][0-9]|[01]?[0-9][0-9]?)\.){3}(?:25[0-5]|2[0-4][0-9]|[01]?[0-9][0-9]?)$`
    applied with `re.match`, whose terminal `$` anchor (no `re.MULTILINE`)
    also matches just before a single trailing newline.
-/

/-- ASCII decimal digit test, `[0-9]` in the regex (`Char.toNat '0' = 48`,
`Char.toNat '9' = 57`). -/
def isDigitC (c : Char) : Bool := 48 ≤ c.toNat && c.toNat ≤ 57

/-- `[01]` in the regex (code points 48 and 49). -/
def isZeroOne (c : Char) : Bool := c.toNat = 48 || c.toNat = 49

/-- Numeric value of a list of decimal digit characters (most significant
first), as Python `int` would read it. -/
def digitsVal (l : List Char) : Nat :=
  l.foldl (fun a c => 10 * a + (c.toNat - 48)) 0

/-- JSON values, the possible results of `response.json()`.  Arrays are
folded into `jobj` territory only insofar as the claims need: the code
paths under verification only ever read dictionaries, strings, numbers,
booleans and null; a JSON array behaves like any other non-dict value
(calling `.get` on it raises), which `jarr` models. -/
inductive JVal where
  | jnull : JVal
  | jbool : Bool → JVal
  | jnum : ℚ → JVal
  | jstr : String → JVal
  | jobj : List (String × JVal) → JVal
  | jarr : JVal

open JVal

/-- Python `dict.get(k, d)` on the field list of a JSON object (objects
are assumed to have no duplicate keys, as produced by `json` decoding
where the last duplicate wins). -/
def getD (fields : List (String × JVal)) (k : String) (d : JVal) : JVal :=
  match fields.find? (fun kv => kv.1 == k) with
  | some kv => kv.2
  | none => d

/-- Python `v == n` for an integer literal `n`: true only for equal
numbers (and booleans, which compare as 0/1); any other type compares
unequal without raising. -/
def jeqNum (v : JVal) (n : ℚ) : Bool :=
  match v with
  | jnum q => q == n
  | jbool b => (if b then (1 : ℚ) else 0) == n
  | _ => false

/-- Python truthiness of a JSON value, as used by `if data.get("success"):`. -/
def truthy (v : JVal) : Bool :=
  match v with
  | jnull => false
  | jbool b => b
  | jnum q => !(q == 0)
  | jstr s => !(s == "")
  | jobj fs => !(fs.isEmpty)
  | jarr => false

/-- The catchable exception classes distinguished by the `except` clauses
of `_query_ip_info`: `asyncio.TimeoutError`, `aiohttp.ClientError`, and
any other `Exception` (covering `ValueError` from `float`,
`AttributeError` from `.get` on a non-dict, JSON decode errors, ...). -/
inductive PyExc where
  | timeoutErr : PyExc
  | clientErr : PyExc
  | otherErr : PyExc
deriving DecidableEq

/-- Split a character list at the first character satisfying `p`,
returning the prefix and, when a split character was found, the suffix
after it. -/
def splitOnce (p : Char → Bool) : List Char → List Char × Option (List Char)
  | [] => ([], none)
  | c :: t =>
    if p c then ([], some t)
    else
      match splitOnce p t with
      | (a, r) => (c :: a, r)

/-- Exponent part of a Python float literal: optional sign, then a
nonempty digit run. -/
def parseExpPart (l : List Char) : Option Int :=
  match l with
  | c :: t =>
    if c = Char.ofNat 43 then
      if t ≠ [] && t.all isDigitC then some (digitsVal t) else none
    else if c = Char.ofNat 45 then
      if t ≠ [] && t.all isDigitC then some (-(digitsVal t : Int)) else none
    else
      if l ≠ [] && l.all isDigitC then some (digitsVal l) else none
  | [] => none

/-- Mantissa of a Python float literal: digits with at most one dot, at
least one digit overall (`d+`, `d+.d*`, `.d+`, `d+.d+`). -/
def parseMantissa (l : List Char) : Option ℚ :=
  match splitOnce (fun c => c = Char.ofNat 46) l with
  | (ip, none) =>
    if ip ≠ [] && ip.all isDigitC then some (digitsVal ip) else none
  | (ip, some fp) =>
    if !(ip.isEmpty && fp.isEmpty) && ip.all isDigitC && fp.all isDigitC then
      some ((digitsVal ip : ℚ) + (digitsVal fp : ℚ) / (10 : ℚ) ^ fp.length)
    else none

/-- Unsigned Python float literal: mantissa with an optional
`e`/`E`-exponent. -/
def parseUnsignedFloat (l : List Char) : Option ℚ :=
  match splitOnce (fun c => c = Char.ofNat 101 || c = Char.ofNat 69) l with
  | (m, none) => parseMantissa m
  | (m, some ex) =>
    match parseMantissa m, parseExpPart ex with
    | some q, some z => some (q * (10 : ℚ) ^ z)
    | _, _ => none

/-- `float(s)` on a string: optional sign then an unsigned float literal.
Surrounding whitespace, underscore separators and the special forms
`inf` / `nan` accepted by Python are not modelled; no claim exercises
them. -/
def pyFloatOfString (s : String) : Option ℚ :=
  match s.data with
  | c :: t =>
    if c = Char.ofNat 43 then parseUnsignedFloat t
    else if c = Char.ofNat 45 then (parseUnsignedFloat t).map (fun q => -q)
    else parseUnsignedFloat s.data
  | [] => none

/-- Python `float(x)` on a JSON value: numbers pass through, booleans
coerce to 0/1, strings are parsed, anything else raises (`TypeError` /
`ValueError`, both plain `Exception`s). -/
def pyFloat (v : JVal) : Except PyExc ℚ :=
  match v with
  | jnum q => .ok q
  | jbool b => .ok (if b then 1 else 0)
  | jstr s =>
    match pyFloatOfString s with
    | some q => .ok q
    | none => .error .otherErr
  | _ => .error .otherErr

/-- One provider response: the HTTP status of the `GET`, and the outcome
of `await response.json()` (which may itself raise). -/
structure HttpResp where
  status : Nat
  jsonBody : Except PyExc JVal

/-- The HTTP world for one `_query_ip_info` call: what each provider
call yields if it is issued — either an exception raised by the `GET`
itself, or a response. -/
structure Env where
  provA : Except PyExc HttpResp
  provB : Except PyExc HttpResp

/-- An outbound HTTP request.  The timeouts come from the
`aiohttp.ClientTimeout(total=10, connect=5)` the session is created
with, so every request issued through the session carries them. -/
structure Request where
  method : String
  url : String
  connectTimeout : Nat
  totalTimeout : Nat
deriving DecidableEq

/-- The request to provider A, from
`url = f"https://api.52vmy.cn/api/query/itad/pro?ip={ip}"`: the IP is
interpolated verbatim by the f-string, with no URL-encoding. -/
def mkRequestA (ip : String) : Request :=
  ⟨"GET", "https://api.52vmy.cn/api/query/itad/pro?ip=" ++ ip, 5, 10⟩

/-- The request to provider B, from
`url = f"https://api.vvhan.com/api/ipInfo?ip={ip}"`. -/
def mkRequestB (ip : String) : Request :=
  ⟨"GET", "https://api.vvhan.com/api/ipInfo?ip=" ++ ip, 5, 10⟩

/-- The normalized lookup result, the dictionary built by
`_query_ip_info`.  String-typed slots hold whatever JSON value the
provider supplied (Python `.get` defaults do not coerce types), so they
are `JVal`; `lat` and `lon` are the coerced floats. -/
structure Info where
  ip : JVal
  country : JVal
  region : JVal
  city : JVal
  isp : JVal
  lat : ℚ
  lon : ℚ
  timezone : JVal

/-- The sentinel `"未知"` used for every absent string field and for the
timezone. -/
def unknownV : JVal := jstr "未知"

/-- The provider-B leg of `_query_ip_info` (`src/main.py` lines 71-87):
issue the GET, and on HTTP 200 with a truthy `success` field extract the
`info` sub-object; any raised exception is propagated as `.error` to the
enclosing `try`.  `log` is the request log accumulated so far. -/
def queryB (ip : String) (pb : Except PyExc HttpResp) (log : List Request) :
    Except PyExc (Option Info) × List Request :=
  let log2 := log ++ [mkRequestB ip]
  match pb with
  | .error e => (.error e, log2)
  | .ok resp =>
    if resp.status = 200 then
      match resp.jsonBody with
      | .error e => (.error e, log2)
      | .ok body =>
        match body with
        | jobj bf =>
          if truthy (getD bf "success" jnull) then
            match getD bf "info" (jobj []) with
            | jobj inf =>
              (.ok (some ⟨getD bf "ip" (jstr ip),
                          getD inf "country" unknownV,
                          getD inf "prov" unknownV,
                          getD inf "city" unknownV,
                          getD inf "isp" unknownV,
                          0, 0, unknownV⟩), log2)
            | _ => (.error .otherErr, log2)
          else (.ok none, log2)
        | _ => (.error .otherErr, log2)
    else (.ok none, log2)

/-- The body of the `try` block of `_query_ip_info` (`src/main.py`
lines 52-87), paired with the list of HTTP requests issued.  `.error e`
means the body raised `e` (to be caught by the `except` clauses);
`.ok none` means it ran to the end without any provider succeeding.

Provider A: GET, then on HTTP 200 parse the body; `result.get` on a
non-dict raises `AttributeError`; when the `code` field equals 200 the
result dictionary is built (coercing latitude then longitude with
`float`, which may raise), otherwise control falls through to provider
B.  A non-200 HTTP status also falls through to provider B. -/
def queryBody (ip : String) (env : Env) :
    Except PyExc (Option Info) × List Request :=
  let logA := [mkRequestA ip]
  match env.provA with
  | .error e => (.error e, logA)
  | .ok resp =>
    if resp.status = 200 then
      match resp.jsonBody with
      | .error e => (.error e, logA)
      | .ok result =>
        match result with
        | jobj rf =>
          if jeqNum (getD rf "code" jnull) 200 then
            match getD rf "data" (jobj []) with
            | jobj df =>
              match pyFloat (getD df "latitude" (jnum 0)) with
              | .error e => (.error e, logA)
              | .ok lat =>
                match pyFloat (getD df "longitude" (jnum 0)) with
                | .error e => (.error e, logA)
                | .ok lon =>
                  (.ok (some ⟨jstr ip,
                              getD df "country" unknownV,
                              getD df "province" unknownV,
                              getD df "city" unknownV,
                              getD df "isp" unknownV,
                              lat, lon, unknownV⟩), logA)
            | _ => (.error .otherErr, logA)
          else queryB ip env.provB logA
        | _ => (.error .otherErr, logA)
    else queryB ip env.provB logA

/-- `_query_ip_info` (`src/main.py` lines 50-96): run the `try` body;
every exception listed in the `except` clauses (timeout, client error,
any other `Exception`) is caught, logged, and the function returns
`None`. -/
def _query_ip_info (ip : String) (env : Env) : Option Info :=
  match (queryBody ip env).1 with
  | .ok v => v
  | .error _ => none

/-! ## The IP validator `_is_valid_ip` -/

/-- The dot character, the literal `\.` of the regex. -/
def dotChar : Char := Char.ofNat 46

/-- The newline character. -/
def nlChar : Char := Char.ofNat 10

/-- One octet of the regex, the alternation
`25[0-5]|2[0-4][0-9]|[01]?[0-9][0-9]?`, as a predicate on the maximal
dot-free run it must match.  The three disjuncts of the length-3 case
are the three regex branches (`[01]?` present); the length-2 case is the
third branch with exactly one of its optional atoms present (which,
since `[01] ⊆ [0-9]`, amounts to two digits); the length-1 case is the
third branch with both optional atoms absent. -/
def octetRe (p : List Char) : Bool :=
  match p with
  | [a] => isDigitC a
  | [a, b] => (isZeroOne a && isDigitC b) || (isDigitC a && isDigitC b)
  | [a, b, c] =>
      (a.toNat = 50 && b.toNat = 53 && 48 ≤ c.toNat && c.toNat ≤ 53)
      || (a.toNat = 50 && 48 ≤ b.toNat && b.toNat ≤ 52 && isDigitC c)
      || (isZeroOne a && isDigitC b && isDigitC c)
  | _ => false

/-- Whether the whole character list matches
`(?:octet\.){3}octet` — equivalently, it splits on dots into exactly
four fields each matching the octet alternation (octets contain no dot,
so any regex decomposition coincides with the dot-split). -/
def ipBody (l : List Char) : Bool :=
  match l.splitOn dotChar with
  | [p1, p2, p3, p4] => octetRe p1 && octetRe p2 && octetRe p3 && octetRe p4
  | _ => false

/-- `_is_valid_ip` (`src/main.py` lines 163-167): `re.match` of the
anchored IPv4 regex.  Without `re.MULTILINE`, the `$` anchor matches at
the end of the string and also just before a newline that ends the
string, so a match succeeds on the whole string or on the string minus
a single trailing newline. -/
def _is_valid_ip (s : String) : Bool :=
  ipBody s.data || (s.data.getLast? == some nlChar && ipBody s.data.dropLast)

/-! ## The command handler `query_ip` -/

/-- Python whitespace for `str.split()` (ASCII part: space and
`\t\n\v\f\r`; the claims exercise no exotic Unicode whitespace). -/
def pySpace (c : Char) : Bool := c.toNat = 32 || (9 ≤ c.toNat && c.toNat ≤ 13)

/-- Helper for `pyWords`: accumulate the current word (reversed). -/
def pyWordsAux : List Char → List Char → List String
  | [], acc => if acc.isEmpty then [] else [String.mk acc.reverse]
  | c :: t, acc =>
    if pySpace c then
      if acc.isEmpty then pyWordsAux t []
      else String.mk acc.reverse :: pyWordsAux t []
    else pyWordsAux t (c :: acc)

/-- Python `str.strip().split()`: split on runs of whitespace, dropping
empty fields (`strip` is absorbed by `split()` ignoring leading and
trailing whitespace). -/
def pyWords (s : String) : List String := pyWordsAux s.data []

/-- Simplified textual rendering of a rational, standing in for Python
float `str()` in the success reply.  No claim inspects the success
reply, so the precise Python float formatting is not modelled. -/
def ratStr (q : ℚ) : String := toString q.num ++ "/" ++ toString q.den

/-- Python `str()` of a JSON value as interpolated by the reply
f-string.  Only the string case is ever compared by a claim. -/
def pyStr (v : JVal) : String :=
  match v with
  | jnull => "None"
  | jbool b => if b then "True" else "False"
  | jnum q => ratStr q
  | jstr s => s
  | jobj _ => "dict"
  | jarr => "list"

/-- The success reply built by `query_ip` (`src/main.py` lines 132-140). -/
def formatInfo (i : Info) : String :=
  "📍 IP地址：" ++ pyStr i.ip ++ "\n" ++
  "🏳️ 国家：" ++ pyStr i.country ++ "\n" ++
  "🗺️ 地区：" ++ pyStr i.region ++ "\n" ++
  "🏙️ 城市：" ++ pyStr i.city ++ "\n" ++
  "🏢 ISP：" ++ pyStr i.isp ++ "\n" ++
  "📍 坐标：" ++ ratStr i.lat ++ ", " ++ ratStr i.lon ++ "\n" ++
  "🕐 时区：" ++ pyStr i.timezone

/-- The `ip 查询` command handler `query_ip` (`src/main.py` lines
111-147), returning the list of reply texts it yields and the list of
HTTP requests issued.  The message is split into words; with fewer than
three words a usage hint is replied; an IP token failing `_is_valid_ip`
is rejected before any request; otherwise a progress line is emitted,
the lookup runs, and either the formatted result or the generic failure
text follows. -/
def query_ip (messageStr : String) (env : Env) : List String × List Request :=
  let parts := pyWords messageStr
  if parts.length < 3 then
    (["❌ 请提供IP地址，格式：ip 查询 8.8.8.8"], [])
  else
    let ip := parts.getD 2 ""
    if _is_valid_ip ip then
      let pre := "🔍 正在查询IP " ++ ip ++ " 的信息..."
      match _query_ip_info ip env with
      | some i => ([pre, formatInfo i], (queryBody ip env).2)
      | none => ([pre, "❌ 查询失败，请稍后重试"], (queryBody ip env).2)
    else
      (["❌ 请输入有效的IP地址"], [])

/-! ## Spec-side definitions -/

/-- Modelled from the spec: percent-encoding of one character for a URL
query string — unreserved characters (ALPHA / DIGIT / `-` `.` `_` `~`)
pass through, every other character is replaced by `%HH` for each byte
of its UTF-8 encoding. -/
def hexDigitC (n : Nat) : Char :=
  if n < 10 then Char.ofNat (48 + n) else Char.ofNat (55 + n)

/-- UTF-8 bytes of a code point. -/
def utf8Bytes (n : Nat) : List Nat :=
  if n < 128 then [n]
  else if n < 2048 then [192 + n / 64, 128 + n % 64]
  else if n < 65536 then [224 + n / 4096, 128 + (n / 64) % 64, 128 + n % 64]
  else [240 + n / 262144, 128 + (n / 4096) % 64, 128 + (n / 64) % 64,
        128 + n % 64]

/-- Unreserved URL characters. -/
def urlUnreserved (c : Char) : Bool :=
  (65 ≤ c.toNat && c.toNat ≤ 90) || (97 ≤ c.toNat && c.toNat ≤ 122) ||
  isDigitC c || c.toNat = 45 || c.toNat = 46 || c.toNat = 95 || c.toNat = 126

/-- Percent-encode one character. -/
def urlEncodeChar (c : Char) : List Char :=
  if urlUnreserved c then [c]
  else (utf8Bytes c.toNat).flatMap
    (fun b => [Char.ofNat 37, hexDigitC (b / 16), hexDigitC (b % 16)])

/-- Modelled from the spec: URL-encoding of a string, as the spec
asserts of the IP embedded in the query string. -/
def urlEncode (s : String) : String :=
  String.mk (s.data.flatMap urlEncodeChar)

/-- The exact condition under which control of `_query_ip_info` falls
through from provider A to provider B: the provider-A request completed
without an exception and either its HTTP status is not 200, or the
status is 200 and its body parsed to a dictionary whose `code` field
does not equal 200. -/
def fallThroughB (env : Env) : Bool :=
  match env.provA with
  | .error _ => false
  | .ok resp =>
    if resp.status = 200 then
      match resp.jsonBody with
      | .ok (jobj rf) => !(jeqNum (getD rf "code" jnull) 200)
      | _ => false
    else true

/-- A field of the dot-split that is not a (nonempty) digit run. -/
def nonNumericOctet (p : List Char) : Bool :=
  p.isEmpty || !(p.all isDigitC)

/-- A digit-run field whose decimal value exceeds 255. -/
def outOfRangeOctet (p : List Char) : Bool :=
  !(p.isEmpty) && p.all isDigitC && 255 < digitsVal p

/-- An environment in which provider A times out. -/
def envTimeoutA : Env := ⟨.error .timeoutErr, .error .timeoutErr⟩

/-- An environment in which both providers respond (HTTP 500) but
neither satisfies its success predicate. -/
def envBothFail : Env := ⟨.ok ⟨500, .ok jnull⟩, .ok ⟨500, .ok jnull⟩⟩

/-! ## Request-log lemmas -/

/-- The provider-B leg always appends exactly one request (the GET to
provider B) to the log, whatever the outcome. -/
theorem queryB_snd (ip : String) (pb : Except PyExc HttpResp) (log : List Request) :
    (queryB ip pb log).2 = log ++ [mkRequestB ip] := by
  unfold queryB
  rcases pb with e | ⟨st, jb⟩
  · rfl
  · dsimp only
    split
    · rcases jb with e | body
      · rfl
      · dsimp only
        rcases body with _ | b | q | s | bf | _ <;> dsimp only
        case jobj =>
          split
          · split <;> rfl
          · rfl
    · rfl

/-- The request log of a lookup is the provider-A request, followed by
the provider-B request exactly when control falls through. -/
theorem queryBody_snd (ip : String) (env : Env) :
    (queryBody ip env).2 =
      if fallThroughB env then [mkRequestA ip, mkRequestB ip]
      else [mkRequestA ip] := by
  rcases env with ⟨pa, pb⟩
  rcases pa with e | ⟨st, jb⟩
  · simp [queryBody, fallThroughB]
  · by_cases hst : st = 200
    · subst hst
      rcases jb with e | body
      · simp [queryBody, fallThroughB]
      · rcases body with _ | b | q | s | rf | _
        · simp [queryBody, fallThroughB]
        · simp [queryBody, fallThroughB]
        · simp [queryBody, fallThroughB]
        · simp [queryBody, fallThroughB]
        · by_cases hc : jeqNum (getD rf "code" jnull) 200 = true
          · simp only [queryBody, fallThroughB, hc, if_true, if_pos rfl,
              Bool.not_true, Bool.false_eq_true, if_false]
            split
            · split
              · rfl
              · split <;> rfl
            · rfl
          · simp only [Bool.not_eq_true] at hc
            simp only [queryBody, fallThroughB, hc, Bool.not_false, if_true,
              if_pos rfl, Bool.false_eq_true, if_false, queryB_snd]
            rfl
        · simp [queryBody, fallThroughB]
    · simp [queryBody, fallThroughB, hst, queryB_snd]

/-- Any exception raised inside the `try` body makes `_query_ip_info`
return `none`. -/
theorem query_none_of_error (ip : String) (env : Env) (e : PyExc)
    (h : (queryBody ip env).1 = .error e) : _query_ip_info ip env = none := by
  unfold _query_ip_info
  rw [h]

/-! ## Claim C1 — provider order and short-circuit -/

/-- C1 (counterexample): the claim states that provider B is attempted
when provider A throws an exception.  In an environment in which the
provider-A request raises a timeout, the request log of the lookup is
the provider-A request alone — provider B is never attempted — and the
lookup returns `none`. -/
theorem c1_counterexample :
    envTimeoutA.provA = .error .timeoutErr ∧
    (queryBody "8.8.8.8" envTimeoutA).2 = [mkRequestA "8.8.8.8"] ∧
    _query_ip_info "8.8.8.8" envTimeoutA = none := ⟨rfl, rfl, rfl⟩

/-- C1 (amended): for every input `ip`, the lookup attempts provider A
first and issues the provider-B request exactly when the provider-A
request completes without an exception and yields a non-200 HTTP status,
or a 200 status whose body parses to a dictionary whose `code` field
does not equal 200 (`fallThroughB`); when provider A throws, the lookup
returns `none` without attempting provider B. -/
theorem c1_fallback (ip : String) (env : Env) :
    (queryBody ip env).2 =
      (if fallThroughB env then [mkRequestA ip, mkRequestB ip]
       else [mkRequestA ip])
    ∧ (∀ e, env.provA = .error e →
        _query_ip_info ip env = none ∧ (queryBody ip env).2 = [mkRequestA ip]) := by
  refine ⟨queryBody_snd ip env, fun e he => ?_⟩
  rcases env with ⟨pa, pb⟩
  dsimp only at he
  subst he
  exact ⟨rfl, rfl⟩

/-- C1 witness: in the timeout environment the amended theorem applies
and yields the single-request log. -/
theorem c1_fallback_witness :
    _query_ip_info "8.8.8.8" envTimeoutA = none ∧
    (queryBody "8.8.8.8" envTimeoutA).2 = [mkRequestA "8.8.8.8"] :=
  (c1_fallback "8.8.8.8" envTimeoutA).2 .timeoutErr rfl

/-! ## Claim C3 — provider A success path -/

/-- The environment of claim C3: provider A answers HTTP 200 with
`code 200` and the Mountain View payload; provider B is arbitrary. -/
def envC3 (pb : Except PyExc HttpResp) : Env :=
  ⟨.ok ⟨200, .ok (jobj [("code", jnum 200),
     ("data", jobj [("country", jstr "US"), ("province", jstr "CA"),
       ("city", jstr "Mountain View"), ("isp", jstr "Google"),
       ("latitude", jstr "37.4"), ("longitude", jstr "-122.1")])])⟩, pb⟩

/-- C3: when provider A responds with HTTP 200 and the payload
`code:200, data:(country US, province CA, city Mountain View, isp
Google, latitude "37.4", longitude "-122.1")` for IP `8.8.8.8`, the
lookup returns country US, region CA, city Mountain View, isp Google,
latitude 37.4 (= 187/5), longitude -122.1 (= -1221/10), timezone the
`"未知"` sentinel — and, whatever provider B would have answered, the
request log holds only the provider-A request. -/
theorem c3_provider_a_success (pb : Except PyExc HttpResp) :
    _query_ip_info "8.8.8.8" (envC3 pb) =
      some ⟨jstr "8.8.8.8", jstr "US", jstr "CA", jstr "Mountain View",
            jstr "Google", 187/5, -1221/10, jstr "未知"⟩
    ∧ (queryBody "8.8.8.8" (envC3 pb)).2 = [mkRequestA "8.8.8.8"] := by
  refine ⟨?_, rfl⟩
  have h : _query_ip_info "8.8.8.8" (envC3 pb) =
      some ⟨jstr "8.8.8.8", jstr "US", jstr "CA", jstr "Mountain View",
            jstr "Google",
            (digitsVal "37".data : ℚ) + (digitsVal "4".data : ℚ) / (10:ℚ)^("4".data.length),
            -((digitsVal "122".data : ℚ) + (digitsVal "1".data : ℚ) / (10:ℚ)^("1".data.length)),
            unknownV⟩ := rfl
  have h1 : digitsVal "37".data = 37 := by decide
  have h2 : digitsVal "4".data = 4 := by decide
  have h3 : digitsVal "122".data = 122 := by decide
  have h4 : digitsVal "1".data = 1 := by decide
  rw [h, h1, h2, h3, h4]
  norm_num [Info.mk.injEq, unknownV]

/-! ## Claim C4 — provider B fallback path -/

/-- The environment of claim C4: provider A answers HTTP 200 with a
non-200 `code` field, provider B answers success with the Beijing
payload echoing IP `1.2.3.4`. -/
def envC4 : Env :=
  ⟨.ok ⟨200, .ok (jobj [("code", jnum 500)])⟩,
   .ok ⟨200, .ok (jobj [("success", jbool true), ("ip", jstr "1.2.3.4"),
     ("info", jobj [("country", jstr "CN"), ("prov", jstr "Beijing"),
       ("city", jstr "Beijing"), ("isp", jstr "ChinaNet")])])⟩⟩

/-- The C4 environment with provider B echoing no `ip` field. -/
def envC4NoIp : Env :=
  ⟨.ok ⟨200, .ok (jobj [("code", jnum 500)])⟩,
   .ok ⟨200, .ok (jobj [("success", jbool true),
     ("info", jobj [("country", jstr "CN"), ("prov", jstr "Beijing"),
       ("city", jstr "Beijing"), ("isp", jstr "ChinaNet")])])⟩⟩

/-- C4: when provider A returns a non-200 `code` field and provider B
returns success with the Beijing payload, the lookup falls back to
provider B and returns ip `1.2.3.4` (provider B's echoed value),
region Beijing, latitude 0, longitude 0 and timezone the `"未知"`
sentinel; when provider B echoes no `ip` field the input IP is used
instead. -/
theorem c4_provider_b_fallback :
    _query_ip_info "5.6.7.8" envC4 =
      some ⟨jstr "1.2.3.4", jstr "CN", jstr "Beijing", jstr "Beijing",
            jstr "ChinaNet", 0, 0, jstr "未知"⟩
    ∧ _query_ip_info "5.6.7.8" envC4NoIp =
      some ⟨jstr "5.6.7.8", jstr "CN", jstr "Beijing", jstr "Beijing",
            jstr "ChinaNet", 0, 0, jstr "未知"⟩ := ⟨rfl, rfl⟩

/-! ## Claim C8 — exceptions never propagate -/

/-- C8: for every input and environment, every exception the `try` body
of the lookup raises — timeout, transport error, or any other — is
caught and the lookup returns `none`; `_query_ip_info` is a total
function into `Option Info`. -/
theorem c8_exceptions_caught (ip : String) (env : Env) (e : PyExc)
    (h : (queryBody ip env).1 = .error e) :
    _query_ip_info ip env = none :=
  query_none_of_error ip env e h

/-- C8 witness: in the timeout environment the body raises and the
lookup returns `none`. -/
theorem c8_exceptions_caught_witness :
    _query_ip_info "8.8.8.8" envTimeoutA = none :=
  c8_exceptions_caught "8.8.8.8" envTimeoutA .timeoutErr rfl

/-! ## Validator lemmas -/

set_option maxRecDepth 4000 in
/-- Every number 0..255 in decimal notation matches the octet
alternation, and its digits contain no dot. -/
theorem octet_repr_aux : ∀ n : Fin 256,
    octetRe (Nat.repr n.val).data = true
    ∧ ((Nat.repr n.val).data.all (fun c => !(c == dotChar))) = true := by decide

/-- A field matching the octet alternation is a nonempty digit run of
value at most 255. -/
theorem octet_sound (p : List Char) (h : octetRe p = true) :
    p.isEmpty = false ∧ p.all isDigitC = true ∧ digitsVal p ≤ 255 := by
  match p with
  | [] => simp [octetRe] at h
  | [a] =>
    simp only [octetRe, isDigitC, Bool.and_eq_true, decide_eq_true_eq] at h
    refine ⟨rfl, ?_, ?_⟩
    · simp only [List.all_cons, List.all_nil, isDigitC, Bool.and_eq_true,
        decide_eq_true_eq, Bool.and_true]
      omega
    · simp only [digitsVal, List.foldl_cons, List.foldl_nil]
      omega
  | [a, b] =>
    simp only [octetRe, isDigitC, isZeroOne, Bool.and_eq_true, Bool.or_eq_true,
      decide_eq_true_eq] at h
    refine ⟨rfl, ?_, ?_⟩
    · simp only [List.all_cons, List.all_nil, isDigitC, Bool.and_eq_true,
        decide_eq_true_eq, Bool.and_true]
      omega
    · simp only [digitsVal, List.foldl_cons, List.foldl_nil]
      omega
  | [a, b, c] =>
    simp only [octetRe, isDigitC, isZeroOne, Bool.and_eq_true, Bool.or_eq_true,
      decide_eq_true_eq] at h
    refine ⟨rfl, ?_, ?_⟩
    · simp only [List.all_cons, List.all_nil, isDigitC, Bool.and_eq_true,
        decide_eq_true_eq, Bool.and_true]
      omega
    · simp only [digitsVal, List.foldl_cons, List.foldl_nil]
      omega
  | a :: b :: c :: d :: t => simp [octetRe] at h

/-- A field that is not a digit run, or whose value exceeds 255, fails
the octet alternation. -/
theorem octet_false_of_bad (p : List Char)
    (h : nonNumericOctet p = true ∨ outOfRangeOctet p = true) :
    octetRe p = false := by
  by_contra hne
  rw [Bool.not_eq_false] at hne
  obtain ⟨h1, h2, h3⟩ := octet_sound p hne
  rcases h with h | h
  · simp [nonNumericOctet, h1, h2] at h
  · simp only [outOfRangeOctet, h1, h2, Bool.not_false, Bool.and_true,
      Bool.true_and, decide_eq_true_eq] at h
    omega

/-- A character list one of whose dot-fields is non-numeric or out of
range does not match the anchored body of the regex. -/
theorem ipBody_false_of_bad (l : List Char)
    (h : (l.splitOn dotChar).any
      (fun p => nonNumericOctet p || outOfRangeOctet p) = true) :
    ipBody l = false := by
  unfold ipBody
  split
  case h_1 p1 p2 p3 p4 heq =>
    rw [heq] at h
    simp only [List.any_cons, List.any_nil, Bool.or_eq_true, Bool.or_false] at h
    rcases h with h | h | h | h <;>
      simp [octet_false_of_bad _ h]
  case h_2 => rfl

/-- Decimal notation of a number at most 255 matches the octet
alternation and contains no dot. -/
theorem octet_le_aux (n : Nat) (hn : n ≤ 255) :
    octetRe (Nat.repr n).data = true
    ∧ ∀ c ∈ (Nat.repr n).data, ¬((c == dotChar) = true) := by
  obtain ⟨h1, h2⟩ := octet_repr_aux ⟨n, by omega⟩
  refine ⟨h1, fun c hc hcd => ?_⟩
  have h3 := List.all_eq_true.mp h2 c hc
  rw [hcd] at h3
  simp at h3

/-- Every canonical dotted-quad of octets at most 255 passes the
validator. -/
theorem valid_quad_accepted (a b c d : Nat)
    (ha : a ≤ 255) (hb : b ≤ 255) (hc : c ≤ 255) (hd : d ≤ 255) :
    _is_valid_ip
      (Nat.repr a ++ "." ++ Nat.repr b ++ "." ++ Nat.repr c ++ "." ++ Nat.repr d)
      = true := by
  obtain ⟨ha1, ha2⟩ := octet_le_aux a ha
  obtain ⟨hb1, hb2⟩ := octet_le_aux b hb
  obtain ⟨hc1, hc2⟩ := octet_le_aux c hc
  obtain ⟨hd1, hd2⟩ := octet_le_aux d hd
  have hdata :
      (Nat.repr a ++ "." ++ Nat.repr b ++ "." ++ Nat.repr c ++ "." ++ Nat.repr d).data
      = (Nat.repr a).data ++ dotChar ::
        ((Nat.repr b).data ++ dotChar ::
          ((Nat.repr c).data ++ dotChar :: (Nat.repr d).data)) := by
    simp [String.data_append]
    rfl
  have hsplit :
      ((Nat.repr a ++ "." ++ Nat.repr b ++ "." ++ Nat.repr c ++ "." ++ Nat.repr d).data).splitOn dotChar
      = [(Nat.repr a).data, (Nat.repr b).data, (Nat.repr c).data, (Nat.repr d).data] := by
    rw [hdata]
    unfold List.splitOn
    rw [List.splitOnP_first _ _ ha2 dotChar (by simp),
        List.splitOnP_first _ _ hb2 dotChar (by simp),
        List.splitOnP_first _ _ hc2 dotChar (by simp),
        List.splitOnP_eq_single _ _ hd2]
  unfold _is_valid_ip ipBody
  rw [hsplit]
  simp [ha1, hb1, hc1, hd1]

/-! ## Claim C5 — validator accepts valid quads, rejects bad octets -/

/-- C5 (counterexample): the claim states that every string containing
a non-numeric octet is rejected, yet `"1.2.3.4\n"` — whose fourth
dot-field `"4\n"` contains a non-digit — is accepted by the validator
(the `$` anchor of `re.match` matches before a single trailing
newline). -/
theorem c5_counterexample :
    ((("1.2.3.4\n").data.splitOn dotChar).any
      (fun p => nonNumericOctet p || outOfRangeOctet p)) = true
    ∧ _is_valid_ip "1.2.3.4\n" = true := ⟨by decide, by decide⟩

/-- C5 (amended): every canonical IPv4 dotted-quad (octets 0..255 in
decimal notation) passes `_is_valid_ip`; and every string one of whose
dot-fields is non-numeric or out of range is rejected, provided the
string does not end with a newline character (a valid dotted-quad
followed by one trailing newline is accepted, see `c5_counterexample`). -/
theorem c5_validator :
    (∀ a b c d : Nat, a ≤ 255 → b ≤ 255 → c ≤ 255 → d ≤ 255 →
      _is_valid_ip
        (Nat.repr a ++ "." ++ Nat.repr b ++ "." ++ Nat.repr c ++ "." ++ Nat.repr d)
        = true)
    ∧ (∀ s : String,
        (s.data.splitOn dotChar).any
          (fun p => nonNumericOctet p || outOfRangeOctet p) = true →
        s.data.getLast? ≠ some nlChar →
        _is_valid_ip s = false) := by
  refine ⟨fun a b c d ha hb hc hd => valid_quad_accepted a b c d ha hb hc hd,
          fun s hbad hnl => ?_⟩
  unfold _is_valid_ip
  rw [ipBody_false_of_bad _ hbad]
  have h2 : (s.data.getLast? == some nlChar) = false := by
    rw [beq_eq_false_iff_ne]
    exact hnl
  simp [h2]

/-- C5 witness: `8.8.8.8` is accepted; `999.1.1.1`, whose first octet
is out of range, is rejected. -/
theorem c5_validator_witness :
    _is_valid_ip
      (Nat.repr 8 ++ "." ++ Nat.repr 8 ++ "." ++ Nat.repr 8 ++ "." ++ Nat.repr 8)
      = true
    ∧ _is_valid_ip "999.1.1.1" = false :=
  ⟨c5_validator.1 8 8 8 8 (by norm_num) (by norm_num) (by norm_num) (by norm_num),
   c5_validator.2 "999.1.1.1" (by decide) (by decide)⟩

/-! ## Claim C10 — trailing newline is accepted -/

/-- C10: the validator accepts an input that is not a bare IPv4
dotted-quad: `"1.2.3.4\n"` ends in a newline (a character that is
neither a digit nor a dot) and is accepted, because the `$` anchor of
the `re.match` regex also matches just before a single trailing
newline; the bare quad `"1.2.3.4"` is accepted as well. -/
theorem c10_trailing_newline_accepted :
    _is_valid_ip "1.2.3.4\n" = true
    ∧ ("1.2.3.4\n").data.getLast? = some nlChar
    ∧ (("1.2.3.4\n").data.any (fun c => !(isDigitC c || c == dotChar))) = true
    ∧ _is_valid_ip "1.2.3.4" = true :=
  ⟨by decide, by decide, by decide, by decide⟩

/-! ## Claim C6 — invalid IP token: rejection, zero requests -/

/-- C6: whenever the third word of the command message fails
`_is_valid_ip`, the handler replies with the rejection message and the
request list is empty — no provider is contacted. -/
theorem c6_invalid_ip_rejected (msg : String) (env : Env)
    (hlen : 3 ≤ (pyWords msg).length)
    (hbad : _is_valid_ip ((pyWords msg).getD 2 "") = false) :
    query_ip msg env = (["❌ 请输入有效的IP地址"], []) := by
  unfold query_ip
  rw [if_neg (by omega), if_neg (by simp only [hbad]; simp)]

/-- C6 witness: the message `ip 查询 not-an-ip` is rejected with no
request issued, whatever the providers would have answered. -/
theorem c6_invalid_ip_rejected_witness :
    query_ip "ip 查询 not-an-ip" envBothFail = (["❌ 请输入有效的IP地址"], []) :=
  c6_invalid_ip_rejected "ip 查询 not-an-ip" envBothFail (by decide) (by decide)

/-! ## Claim C2 — failure values and user-visible message -/

/-- C2 (counterexample): the claim states that a failing lookup returns
a failure value distinguishing a timeout from exhausted providers; in
the code a provider-A timeout and a both-providers-unsuccessful run
return the same value `none`, so the return value distinguishes
nothing. -/
theorem c2_counterexample :
    _query_ip_info "8.8.8.8" envTimeoutA = none
    ∧ _query_ip_info "8.8.8.8" envBothFail = none := ⟨rfl, rfl⟩

/-- C2 (amended): whenever the lookup does not succeed — the body
raises (timeout, transport error, or any other exception) or runs out
of providers — `_query_ip_info` returns the single absent value `none`
(the distinguishing detail is only logged); and on a lookup returning
`none` the handler emits exactly the progress line followed by the one
generic failure text, with no exception detail. -/
theorem c2_failure_uniform :
    (∀ (ip : String) (env : Env),
      (∀ i : Info, (queryBody ip env).1 ≠ .ok (some i)) →
      _query_ip_info ip env = none)
    ∧ (∀ (msg : String) (env : Env),
        3 ≤ (pyWords msg).length →
        _is_valid_ip ((pyWords msg).getD 2 "") = true →
        _query_ip_info ((pyWords msg).getD 2 "") env = none →
        (query_ip msg env).1 =
          ["🔍 正在查询IP " ++ (pyWords msg).getD 2 "" ++ " 的信息...",
           "❌ 查询失败，请稍后重试"]) := by
  constructor
  · intro ip env h
    unfold _query_ip_info
    cases hq : (queryBody ip env).1 with
    | error e => rfl
    | ok v =>
      cases v with
      | none => rfl
      | some i => exact absurd hq (h i)
  · intro msg env hlen hvalid hnone
    unfold query_ip
    rw [if_neg (by omega), if_pos hvalid, hnone]

/-- C2 witness: with provider A timing out, the lookup returns `none`
and the handler replies with the generic failure text. -/
theorem c2_failure_uniform_witness :
    _query_ip_info "8.8.8.8" envTimeoutA = none
    ∧ (query_ip "ip 查询 8.8.8.8" envTimeoutA).1 =
        ["🔍 正在查询IP " ++ (pyWords "ip 查询 8.8.8.8").getD 2 "" ++ " 的信息...",
         "❌ 查询失败，请稍后重试"] :=
  ⟨c2_failure_uniform.1 "8.8.8.8" envTimeoutA (fun i h => nomatch h),
   c2_failure_uniform.2 "ip 查询 8.8.8.8" envTimeoutA (by decide) (by decide) rfl⟩

/-! ## Claim C7 — request shape, timeouts and URL-encoding -/

/-- Digits and the dot are URL-unreserved, so they encode to
themselves. -/
theorem urlEncodeChar_digit_dot (c : Char)
    (h : (isDigitC c || c == dotChar) = true) : urlEncodeChar c = [c] := by
  unfold urlEncodeChar
  rw [if_pos]
  unfold urlUnreserved
  rcases Bool.or_eq_true_iff.mp h with h | h
  · simp [h]
  · have hcd : c = dotChar := by simpa using h
    subst hcd
    decide

/-- A character list of digits and dots percent-encodes to itself. -/
theorem urlEncode_digit_dot_list (l : List Char)
    (h : l.all (fun c => isDigitC c || c == dotChar) = true) :
    l.flatMap urlEncodeChar = l := by
  induction l with
  | nil => rfl
  | cons c t ih =>
    simp only [List.all_cons, Bool.and_eq_true] at h
    rw [List.flatMap_cons, urlEncodeChar_digit_dot c h.1, ih h.2]
    rfl

/-- A string of digits and dots is its own URL-encoding. -/
theorem urlEncode_digit_dot (s : String)
    (h : s.data.all (fun c => isDigitC c || c == dotChar) = true) :
    urlEncode s = s := by
  unfold urlEncode
  rw [urlEncode_digit_dot_list s.data h]

/-- C7 (counterexample): the claim states the IP is embedded
URL-encoded; the code interpolates it verbatim.  The validator-accepted
input `"1.2.3.4\n"` is embedded raw in the provider-A URL, which
differs from the URL built with the URL-encoded IP (`%0A` for the
newline). -/
theorem c7_counterexample :
    _is_valid_ip "1.2.3.4\n" = true
    ∧ (queryBody "1.2.3.4\n" envBothFail).2.head? = some (mkRequestA "1.2.3.4\n")
    ∧ (mkRequestA "1.2.3.4\n").url ≠
        "https://api.52vmy.cn/api/query/itad/pro?ip=" ++ urlEncode "1.2.3.4\n"
    ∧ urlEncode "1.2.3.4\n" = "1.2.3.4%0A" :=
  ⟨by decide, rfl, by decide, by decide⟩

/-- C7 (amended): every request a lookup issues is an HTTP GET to one
of the two provider endpoints with the IP appended verbatim to the
query string, under connect timeout 5 and total timeout 10; no
URL-encoding is applied, though for IPs made of digits and dots the
verbatim embedding coincides with the URL-encoded one. -/
theorem c7_requests (ip : String) (env : Env) (r : Request)
    (hr : r ∈ (queryBody ip env).2) :
    r.method = "GET"
    ∧ r.connectTimeout = 5 ∧ r.totalTimeout = 10
    ∧ (r.url = "https://api.52vmy.cn/api/query/itad/pro?ip=" ++ ip
       ∨ r.url = "https://api.vvhan.com/api/ipInfo?ip=" ++ ip)
    ∧ (ip.data.all (fun c => isDigitC c || c == dotChar) = true →
        urlEncode ip = ip) := by
  rw [queryBody_snd] at hr
  have hra : r = mkRequestA ip ∨ r = mkRequestB ip := by
    split at hr
    · rcases List.mem_cons.mp hr with h | h2
      · exact Or.inl h
      · exact Or.inr (by simpa using h2)
    · exact Or.inl (by simpa using hr)
  rcases hra with h | h <;> subst h
  · exact ⟨rfl, rfl, rfl, Or.inl rfl, fun hd => urlEncode_digit_dot ip hd⟩
  · exact ⟨rfl, rfl, rfl, Or.inr rfl, fun hd => urlEncode_digit_dot ip hd⟩

/-- C7 witness: the provider-A request for `8.8.8.8` is in the log of a
lookup and has the stated method, URL and timeouts. -/
theorem c7_requests_witness :
    (mkRequestA "8.8.8.8").method = "GET"
    ∧ (mkRequestA "8.8.8.8").connectTimeout = 5
    ∧ (mkRequestA "8.8.8.8").totalTimeout = 10
    ∧ ((mkRequestA "8.8.8.8").url = "https://api.52vmy.cn/api/query/itad/pro?ip=" ++ "8.8.8.8"
       ∨ (mkRequestA "8.8.8.8").url = "https://api.vvhan.com/api/ipInfo?ip=" ++ "8.8.8.8")
    ∧ (("8.8.8.8").data.all (fun c => isDigitC c || c == dotChar) = true →
        urlEncode "8.8.8.8" = "8.8.8.8") :=
  c7_requests "8.8.8.8" envBothFail (mkRequestA "8.8.8.8") (by decide)

/-! ## Claim C9 — uncoercible coordinates -/

/-- C9: if provider A responds HTTP 200 with `code` 200 but a latitude
or longitude that `float` cannot coerce, the coercion raises, the
exception is caught — the body ends in `.error`, the lookup returns
`none` — and provider B is never attempted. -/
theorem c9_bad_coercion (ip : String) (env : Env) (rf df : List (String × JVal))
    (hA : env.provA = .ok ⟨200, .ok (jobj rf)⟩)
    (hcode : jeqNum (getD rf "code" jnull) 200 = true)
    (hdata : getD rf "data" (jobj []) = jobj df)
    (hbad : (∃ e, pyFloat (getD df "latitude" (jnum 0)) = .error e)
            ∨ (∃ e, pyFloat (getD df "longitude" (jnum 0)) = .error e)) :
    (∃ e, (queryBody ip env).1 = .error e)
    ∧ _query_ip_info ip env = none
    ∧ (queryBody ip env).2 = [mkRequestA ip] := by
  rcases env with ⟨pa, pb⟩
  dsimp only at hA
  subst hA
  cases hlat : pyFloat (getD df "latitude" (jnum 0)) with
  | error e =>
    refine ⟨⟨e, ?_⟩, ?_, ?_⟩ <;>
      simp [_query_ip_info, queryBody, hcode, hdata, hlat]
  | ok q =>
    rcases hbad with ⟨e, he⟩ | ⟨e, he⟩
    · rw [hlat] at he
      exact absurd he (by simp)
    · refine ⟨⟨e, ?_⟩, ?_, ?_⟩ <;>
        simp [_query_ip_info, queryBody, hcode, hdata, hlat, he]

/-- The environment of the C9 witness: provider A answers `code` 200
with an unparseable latitude string. -/
def envC9 : Env :=
  ⟨.ok ⟨200, .ok (jobj [("code", jnum 200),
     ("data", jobj [("latitude", jstr "abc")])])⟩, .error .timeoutErr⟩

/-- C9 witness: with latitude `"abc"` the lookup returns `none` and
only the provider-A request is issued. -/
theorem c9_bad_coercion_witness :
    _query_ip_info "8.8.8.8" envC9 = none
    ∧ (queryBody "8.8.8.8" envC9).2 = [mkRequestA "8.8.8.8"] :=
  ⟨(c9_bad_coercion "8.8.8.8" envC9
      [("code", jnum 200), ("data", jobj [("latitude", jstr "abc")])]
      [("latitude", jstr "abc")] rfl rfl rfl (Or.inl ⟨.otherErr, rfl⟩)).2.1,
   (c9_bad_coercion "8.8.8.8" envC9
      [("code", jnum 200), ("data", jobj [("latitude", jstr "abc")])]
      [("latitude", jstr "abc")] rfl rfl rfl (Or.inl ⟨.otherErr, rfl⟩)).2.2⟩
